/-
Verification of the frame relay / detection fan-out pipeline of the
fastapiserver repository.

Shallow embedding of:
  * the bounded frame queue (Python `queue.Queue(maxsize=60)` as used by
    `RtspServer._on_new_sample_from_push` and `lifespan` in src/app/main.py),
  * `GStreamerFrameProducer` (src/app/services/gstreamer_frame_producer.py),
  * the detection normalization in `handle_ai_prediction` (src/app/main.py)
    together with the pydantic `DetectionObject` / `AIDetectionResult`
    models (src/app/api/models.py),
  * `ConnectionManager` (src/app/services/websocket_manager.py).

Python datetimes are modelled as rational numbers of seconds since the
epoch; numpy frame buffers are modelled as opaque `Nat` payloads; asyncio
tasks are modelled by the numeric identity of the task object, a fresh
number per `asyncio.create_task` call.
-/
import Mathlib

/-! ## Bounded frame queue (Python `queue.Queue`) -/

/-- A Python `queue.Queue`: fixed `maxsize` plus the FIFO contents. -/
structure BoundedQueue (α : Type) where
  maxsize : Nat
  items : List α
deriving DecidableEq

namespace BoundedQueue

/-- `put(item, block=False)`: when `maxsize > 0` and the queue already holds
`maxsize` items or more, raise `queue.Full` (returned as `false`) and leave
the contents untouched; otherwise append the item (`true`). -/
def put_nowait {α : Type} (q : BoundedQueue α) (x : α) : BoundedQueue α × Bool :=
  if 0 < q.maxsize ∧ q.maxsize ≤ q.items.length then
    (q, false)
  else
    ({ q with items := q.items ++ [x] }, true)

/-- `get(timeout=...)` at a moment where no producer is about to add an item:
returns the head of the FIFO, or `none` (queue.Empty after the timeout). -/
def get_one {α : Type} (q : BoundedQueue α) : BoundedQueue α × Option α :=
  match q.items with
  | [] => (q, none)
  | x :: rest => ({ q with items := rest }, some x)

end BoundedQueue

/-- A queue slot as produced by `RtspServer._on_new_sample_from_push`:
the copied pixel buffer (opaque payload) and the nanosecond epoch
timestamp.  The producer always stores a concrete timestamp, but
`read_frame` guards for `None`, hence the `Option`. -/
def FrameSlot : Type := Nat × Option Nat

instance : DecidableEq FrameSlot := by
  unfold FrameSlot
  infer_instance

/-- Core of `RtspServer._on_new_sample_from_push`: put the copied frame and
its nanosecond timestamp into the shared queue without blocking; on
`queue.Full` the frame is dropped (result `false`) and a drop is logged. -/
def onNewSampleFromPush (q : BoundedQueue FrameSlot) (frame ts : Nat) :
    BoundedQueue FrameSlot × Bool :=
  q.put_nowait (frame, some ts)

/-- Push a whole burst of `(frame, timestamp_ns)` samples back-to-back,
counting the frames dropped because the queue was full. -/
def pushFrames (q : BoundedQueue FrameSlot) (fs : List (Nat × Nat)) :
    BoundedQueue FrameSlot × Nat :=
  fs.foldl
    (fun acc f =>
      let r := onNewSampleFromPush acc.1 f.1 f.2
      (r.1, if r.2 then acc.2 else acc.2 + 1))
    (q, 0)

/-! ## GStreamerFrameProducer -/

/-- The `VideoFrame` handed to the inference pipeline: copied image data,
the dequeue-time sequence id, and the capture timestamp as a datetime
(rational seconds since the epoch). -/
structure VideoFrame where
  image : Option Nat
  frame_id : Nat
  frame_timestamp : ℚ
  source_id : Nat
deriving DecidableEq

/-- Mutable state of a `GStreamerFrameProducer`. -/
structure GStreamerFrameProducer where
  frame_queue : BoundedQueue FrameSlot
  running : Bool
  frame_id_counter : Nat
  last_read_video_frame : Option VideoFrame
  last_retrieved_frame_id : Option Nat
  last_retrieved_frame_timestamp : Option ℚ
  source_id : Nat
deriving DecidableEq

namespace GStreamerFrameProducer

/-- `start()`: sets the running flag. -/
def start (st : GStreamerFrameProducer) : GStreamerFrameProducer :=
  { st with running := true }

/-- `isOpened()`: returns the running flag. -/
def isOpened (st : GStreamerFrameProducer) : Bool :=
  st.running

/-- `read_frame()`: when not running, return `None`; otherwise dequeue one
`(numpy_array, timestamp_ns)` slot (returning `None` on `queue.Empty`),
increment the frame id counter, convert the nanosecond timestamp to a
datetime via `timestamp_ns / 1_000_000_000` seconds (falling back to
`datetime.now()`, the `now` argument, when the timestamp is `None`), and
wrap everything into a `VideoFrame` carrying a copy of the image. -/
def read_frame (st : GStreamerFrameProducer) (now : ℚ) :
    GStreamerFrameProducer × Option VideoFrame :=
  if st.running then
    match st.frame_queue.get_one with
    | (_, none) => (st, none)
    | (q2, some slot) =>
      let ctr := st.frame_id_counter + 1
      let dt : ℚ :=
        match slot.2 with
        | some t => (t : ℚ) / 1000000000
        | none => now
      ({ st with frame_queue := q2, frame_id_counter := ctr },
       some { image := some slot.1, frame_id := ctr,
              frame_timestamp := dt, source_id := st.source_id })
  else
    (st, none)

/-- `grab()`: when not running, fail immediately (the queue and the
single-slot holder are untouched); otherwise call `read_frame()` and store
its result in the single-slot holder, clearing the holder on failure. -/
def grab (st : GStreamerFrameProducer) (now : ℚ) :
    GStreamerFrameProducer × Bool :=
  if st.running then
    let r := read_frame st now
    match r.2 with
    | some vf => ({ r.1 with last_read_video_frame := some vf }, true)
    | none => ({ r.1 with last_read_video_frame := none }, false)
  else
    (st, false)

/-- `retrieve()`: one-shot read of the single-slot holder.  When a frame is
held, cache its id and timestamp, clear the holder, and return the image
(failing if the stored image was `None`); otherwise return `(False, None)`. -/
def retrieve (st : GStreamerFrameProducer) :
    GStreamerFrameProducer × (Bool × Option Nat) :=
  match st.last_read_video_frame with
  | some vf =>
    let st2 :=
      { st with
        last_read_video_frame := none,
        last_retrieved_frame_id := some vf.frame_id,
        last_retrieved_frame_timestamp := some vf.frame_timestamp }
    match vf.image with
    | some img => (st2, (true, some img))
    | none => (st2, (false, none))
  | none => (st, (false, none))

end GStreamerFrameProducer

/-! ## Pipeline runs (capture pushes interleaved with consumer reads) -/

/-- One event of the relay: either the capture callback pushes a frame, or
the consumer side calls `read_frame` (a `grab`). -/
inductive PipeOp
| push (frame ts : Nat)
| read (now : ℚ)
deriving DecidableEq

/-- One step of the relay: a push goes through
`RtspServer._on_new_sample_from_push` (dropping on full), a read through
`GStreamerFrameProducer.read_frame`, appending any dequeued frame to the
output trace. -/
def pipeStep (acc : GStreamerFrameProducer × List VideoFrame) (op : PipeOp) :
    GStreamerFrameProducer × List VideoFrame :=
  match op with
  | .push f t =>
    ({ acc.1 with frame_queue := (onNewSampleFromPush acc.1.frame_queue f t).1 },
     acc.2)
  | .read now =>
    let r := acc.1.read_frame now
    (r.1, acc.2 ++ r.2.toList)

/-- Run a sequence of pipeline events, collecting the successfully
dequeued frames in order. -/
def runPipe (st : GStreamerFrameProducer) (ops : List PipeOp) :
    GStreamerFrameProducer × List VideoFrame :=
  ops.foldl pipeStep (st, [])

/-! ## Detection normalization (`handle_ai_prediction` + pydantic models) -/

/-- Pydantic `DetectionObject` (src/app/api/models.py): a normalized
detection.  The pydantic field validators constrain `confidence` to
`[0,1]`; construction goes through `mkDetectionObject` below. -/
structure DetectionObject where
  class_name : String
  confidence : ℚ
  x_center : ℚ
  y_center : ℚ
  width : ℚ
  height : ℚ
deriving DecidableEq

/-- Pydantic construction of a `DetectionObject`: the model declares
`confidence: float = Field(..., ge=0.0, le=1.0)`, so building an object
with a confidence outside `[0,1]` raises a `ValidationError` (a
`ValueError`), modelled as `none`. -/
def mkDetectionObject (cls : String) (conf cx cy w h : ℚ) :
    Option DetectionObject :=
  if 0 ≤ conf ∧ conf ≤ 1 then
    some { class_name := cls, confidence := conf, x_center := cx,
           y_center := cy, width := w, height := h }
  else
    none

/-- One raw prediction record as handed to `handle_ai_prediction`:
`pred.get('x')`, `pred.get('y')`, `pred.get('width')`, `pred.get('height')`,
`pred.get('confidence')`, `pred.get('class')` — each possibly absent. -/
structure RawPrediction where
  x : Option ℚ
  y : Option ℚ
  width : Option ℚ
  height : Option ℚ
  confidence : Option ℚ
  className : Option String
deriving DecidableEq

/-- Per-item body of the normalization loop in `handle_ai_prediction`
(executed only when `img_width > 0 and img_height > 0`): skip the item when
any of the six core fields is missing, otherwise divide the absolute
center/size by the image dimensions and build the pydantic object;
a `ValueError`/`TypeError` during construction (out-of-range confidence)
also skips just this item. -/
def processPrediction (img_width img_height : Int) (p : RawPrediction) :
    Option DetectionObject :=
  match p.x, p.y, p.width, p.height, p.confidence, p.className with
  | some cx, some cy, some w, some h, some conf, some cls =>
    mkDetectionObject cls conf (cx / (img_width : ℚ)) (cy / (img_height : ℚ))
      (w / (img_width : ℚ)) (h / (img_height : ℚ))
  | _, _, _, _, _, _ => none

/-- The `processed_detections` list built by `handle_ai_prediction`: empty
when the image shape is unavailable or has a non-positive width or height
(only a warning is logged), otherwise the per-item loop over the raw
predictions, skipping bad items individually.  The shape tuple is numpy
order `(height, width)`. -/
def processedDetections (image_shape : Option (Int × Int))
    (preds : List RawPrediction) : List DetectionObject :=
  match image_shape with
  | some (h, w) =>
    if 0 < w ∧ 0 < h then preds.filterMap (processPrediction w h) else []
  | none => []

/-- Python `int()` applied to a rational: truncation toward zero. -/
def pyInt (q : ℚ) : Int :=
  if q < 0 then ⌈q⌉ else ⌊q⌋

/-- The raw `frame_info["frame_id"]` can be an `int` or a string
(`"N/A"` when the pipeline frame had no id attribute). -/
def parseFrameId : Int ⊕ String → Int
  | Sum.inl n => n
  | Sum.inr s =>
    if s ≠ "" ∧ s.toList.all Char.isDigit then ((s.toNat?.getD 0 : Nat) : Int)
    else 0

/-- The `frame_info` dict built by `AIProcessor._on_prediction`:
`frame_id` (int or string), `timestamp` (a datetime when present),
`image_shape` (numpy `(height, width)` prefix of the shape tuple, `none`
when absent or too short), and an optional `fps` entry. -/
structure FrameInfo where
  frame_id : Int ⊕ String
  timestamp : Option ℚ
  image_shape : Option (Int × Int)
  fps : Option ℚ
deriving DecidableEq

/-- Pydantic `AIDetectionResult` (src/app/api/models.py). -/
structure AIDetectionResult where
  frame_id : Int
  timestamp : Int
  fps : ℚ
  detections : List DetectionObject
  error : Option String
deriving DecidableEq

/-- The successful path of `handle_ai_prediction` (src/app/main.py):
parse the frame id, convert the datetime timestamp to integer milliseconds
via `int(raw_timestamp.timestamp() * 1000)` (falling back to the current
time when no datetime is present), normalize the raw predictions, and
build the broadcast payload with `error=None`. -/
def handle_ai_prediction (preds : List RawPrediction) (fi : FrameInfo)
    (now : ℚ) : AIDetectionResult :=
  { frame_id := parseFrameId fi.frame_id,
    timestamp :=
      match fi.timestamp with
      | some dt => pyInt (dt * 1000)
      | none => pyInt (now * 1000),
    fps := fi.fps.getD 0,
    detections := processedDetections fi.image_shape preds,
    error := none }

/-- `AIProcessor._on_prediction` builds `frame_info` from the pipeline
`VideoFrame`: its `frame_id`, its datetime `frame_timestamp`, and the
numpy shape of the image. -/
def mkFrameInfo (vf : VideoFrame) (shape : Option (Int × Int)) : FrameInfo :=
  { frame_id := Sum.inl (vf.frame_id : Int),
    timestamp := some vf.frame_timestamp,
    image_shape := shape,
    fps := none }

/-! ## ConnectionManager (websocket_manager.py) -/

/-- Messages a subscriber can receive.  `aiDetection` is the
`{"type": "ai_detection", "data": result}` wrapper built by
`broadcast_ai_result`; payload timestamps inside status/ping messages are
not load-bearing here and are omitted. -/
inductive WsMessage
| connectionStatus (client_id : String)
| aiDetection (data : AIDetectionResult)
| ping
| echo (text : String)
deriving DecidableEq

/-- `ConnectionManager` state: the insertion-ordered dict
`active_connections` (client id → websocket handle, handles modelled as
numbers), the keepalive task (`none` = no task; a task is identified by
the number of its `asyncio.create_task` call so that distinct tasks are
distinguishable), the `is_running` flag, and the counter generating fresh
task identities. -/
structure ConnectionManager where
  active_connections : List (String × Nat)
  ping_task : Option Nat
  is_running : Bool
  next_task_id : Nat
deriving DecidableEq

/-- Python dict assignment `d[k] = v`: update in place when the key exists
(keeping its position), otherwise append. -/
def dictInsert (l : List (String × Nat)) (k : String) (v : Nat) :
    List (String × Nat) :=
  if l.any (fun p => p.1 == k) then
    l.map (fun p => if p.1 == k then (k, v) else p)
  else
    l ++ [(k, v)]

namespace ConnectionManager

/-- Second half of `disconnect`: when the registry has become empty and a
keepalive task is running, cancel it and await its termination
(`is_running := false`, `ping_task := None`). -/
def disconnectFinish (st1 : ConnectionManager) : ConnectionManager :=
  if st1.active_connections = [] ∧ st1.ping_task ≠ none ∧ st1.is_running then
    { st1 with is_running := false, ping_task := none }
  else st1

/-- `disconnect(client_id)`: delete the client when present; then run the
empty-registry keepalive cancellation check. -/
def disconnect (st : ConnectionManager) (client_id : String) :
    ConnectionManager :=
  disconnectFinish
    (if (st.active_connections.lookup client_id).isSome then
      { st with active_connections :=
          st.active_connections.filter (fun p => p.1 != client_id) }
    else st)

/-- `send_personal_message(message, client_id)`: silently do nothing when
the client is not registered; otherwise send (the delivered message is the
second component), and on a transport failure (`fails ws`) disconnect that
client and deliver nothing. -/
def send_personal_message (st : ConnectionManager) (fails : Nat → Bool)
    (msg : WsMessage) (client_id : String) :
    ConnectionManager × Option WsMessage :=
  match st.active_connections.lookup client_id with
  | some ws =>
    if fails ws then (st.disconnect client_id, none)
    else (st, some msg)
  | none => (st, none)

/-- Last step of `connect`: when no keepalive task is running, mark running
and start a fresh ping task (`asyncio.create_task(self._ping_clients())`). -/
def connectFinish (st2 : ConnectionManager) : ConnectionManager :=
  if ¬ st2.is_running ∧ st2.ping_task = none then
    { st2 with is_running := true, ping_task := some st2.next_task_id,
               next_task_id := st2.next_task_id + 1 }
  else st2

/-- `connect(websocket, client_id)`: accept, register the handle, send the
welcome `connection_status` message to that client only (through
`send_personal_message`, so a failing transport disconnects it again), and
finally start a keepalive task when none is running. -/
def connect (st : ConnectionManager) (fails : Nat → Bool)
    (client_id : String) (ws : Nat) : ConnectionManager :=
  connectFinish
    (({ st with active_connections :=
          dictInsert st.active_connections client_id ws
        : ConnectionManager }.send_personal_message fails
        (WsMessage.connectionStatus client_id) client_id).1)

/-- `broadcast(message)`: iterate the registry in order, sending to each
client; a transport failure (`fails ws`) is caught, the client id recorded,
and the pass continues.  After the pass, every failed client is
disconnected.  The second component lists the deliveries of the pass in
order. -/
def broadcast (st : ConnectionManager) (fails : Nat → Bool)
    (msg : WsMessage) : ConnectionManager × List (String × WsMessage) :=
  let pass :=
    st.active_connections.foldl
      (fun (acc : List (String × WsMessage) × List String) cw =>
        if fails cw.2 then (acc.1, acc.2 ++ [cw.1])
        else (acc.1 ++ [(cw.1, msg)], acc.2))
      ([], [])
  (pass.2.foldl disconnect st, pass.1)

/-- `broadcast_ai_result(result)`: wrap the result as an `ai_detection`
message and broadcast it. -/
def broadcast_ai_result (st : ConnectionManager) (fails : Nat → Bool)
    (result : AIDetectionResult) : ConnectionManager × List (String × WsMessage) :=
  st.broadcast fails (WsMessage.aiDetection result)

end ConnectionManager

/-- End-to-end step of the relay on the event loop: `handle_ai_prediction`
builds the payload and `broadcast_ai_result` fans it out. -/
def handleAndBroadcast (st : ConnectionManager) (fails : Nat → Bool)
    (preds : List RawPrediction) (fi : FrameInfo) (now : ℚ) :
    ConnectionManager × List (String × WsMessage) :=
  st.broadcast_ai_result fails (handle_ai_prediction preds fi now)

/-- Keepalive/registry coupling invariant: no keepalive task exists while
the registry is empty, and a task exists exactly while `is_running` holds. -/
def ManagerInv (st : ConnectionManager) : Prop :=
  (st.active_connections = [] → st.ping_task = none) ∧
  (st.ping_task = none ↔ st.is_running = false)

/-! ## Helper lemmas -/

/-- The invariant tying the dequeue-time id counter to the frames already
dequeued: the counter counts them, and their ids are consecutive from just
above the initial counter value `c0`. -/
def pipeInv (c0 : Nat) (acc : GStreamerFrameProducer × List VideoFrame) : Prop :=
  acc.1.frame_id_counter = c0 + acc.2.length ∧
  acc.2.map VideoFrame.frame_id = List.range' (c0 + 1) acc.2.length

lemma pipeStep_inv (c0 : Nat) (acc : GStreamerFrameProducer × List VideoFrame)
    (op : PipeOp) (h : pipeInv c0 acc) : pipeInv c0 (pipeStep acc op) := by
  obtain ⟨h1, h2⟩ := h
  cases op with
  | push f t =>
    exact ⟨h1, h2⟩
  | read now =>
    cases hrun : acc.1.running with
    | false =>
      simpa [pipeStep, GStreamerFrameProducer.read_frame, hrun] using ⟨h1, h2⟩
    | true =>
      cases hq : acc.1.frame_queue.items with
      | nil =>
        simpa [pipeStep, GStreamerFrameProducer.read_frame,
               BoundedQueue.get_one, hrun, hq] using ⟨h1, h2⟩
      | cons slot rest =>
        refine ⟨?_, ?_⟩
        · simp [pipeStep, GStreamerFrameProducer.read_frame,
                BoundedQueue.get_one, hrun, hq, h1]
          omega
        · simp only [pipeStep, GStreamerFrameProducer.read_frame,
                     BoundedQueue.get_one, hrun, hq, if_true]
          simp only [Option.toList_some, List.map_append, List.map_cons,
                     List.map_nil, List.length_append, List.length_cons,
                     List.length_nil, h2, h1]
          rw [List.range'_concat]
          simp [Nat.add_comm, Nat.add_assoc, Nat.add_left_comm]

lemma runPipe_inv (c0 : Nat) (ops : List PipeOp)
    (acc : GStreamerFrameProducer × List VideoFrame) (h : pipeInv c0 acc) :
    pipeInv c0 (ops.foldl pipeStep acc) := by
  induction ops generalizing acc with
  | nil => exact h
  | cons op ops ih => exact ih _ (pipeStep_inv c0 acc op h)

/-! ## Claims -/

set_option maxRecDepth 4096 in
/-- C1: a non-blocking put on a full bounded queue reports failure and
leaves the queue contents exactly unchanged in their original order (the
incoming frame is discarded, nothing is evicted); and pushing 100 frames
back-to-back through `_on_new_sample_from_push` into the empty capacity-60
queue of `lifespan` retains exactly the first 60 pushed frames, in order,
counting exactly 40 drops. -/
theorem put_on_full_drops_newest :
    (∀ (q : BoundedQueue FrameSlot) (x : FrameSlot),
        0 < q.maxsize → q.items.length = q.maxsize →
        q.put_nowait x = (q, false)) ∧
    pushFrames ⟨60, []⟩ ((List.range 100).map (fun i => (i, i))) =
      (⟨60, (List.range 60).map (fun i => (i, some i))⟩, 40) := by
  constructor
  · intro q x h1 h2
    simp [BoundedQueue.put_nowait, h1, h2]
  · decide

/-- Witness for C1: a concrete full queue of capacity 2 rejects a third
frame and is left exactly as it was. -/
theorem put_on_full_drops_newest_witness :
    BoundedQueue.put_nowait ⟨2, [((0 : Nat), some 0), (1, some 1)]⟩
        ((2 : Nat), some 2) =
      (⟨2, [((0 : Nat), some 0), (1, some 1)]⟩, false) :=
  put_on_full_drops_newest.1 ⟨2, [(0, some 0), (1, some 1)]⟩ (2, some 2)
    (by decide) (by decide)

/-- C8: frame sequence ids are assigned at dequeue time: over any
interleaving of capture pushes (including drops on a full queue) and
consumer reads (including timed-out reads of an empty queue), the i-th
successfully dequeued frame carries `frame_id = i`, starting at 1 and
increasing by 1 per successful dequeue only. -/
theorem sequence_ids_assigned_at_dequeue
    (st0 : GStreamerFrameProducer) (ops : List PipeOp)
    (h : st0.frame_id_counter = 0) :
    (runPipe st0 ops).2.map VideoFrame.frame_id =
      List.range' 1 (runPipe st0 ops).2.length := by
  have hinv : pipeInv 0 (st0, []) := by
    constructor
    · simpa using h
    · simp
  exact (runPipe_inv 0 ops (st0, []) hinv).2

/-- Witness for C8: a concrete run with two pushes beyond capacity-1 (one
drop), an empty-queue read, and two successful dequeues yields ids [1, 2]. -/
theorem sequence_ids_assigned_at_dequeue_witness :
    (runPipe ⟨⟨1, []⟩, true, 0, none, none, none, 0⟩
        [PipeOp.push 10 100, PipeOp.push 11 101, PipeOp.read 0,
         PipeOp.read 0, PipeOp.push 12 102, PipeOp.read 0]).2.map
        VideoFrame.frame_id =
      List.range' 1
        (runPipe ⟨⟨1, []⟩, true, 0, none, none, none, 0⟩
          [PipeOp.push 10 100, PipeOp.push 11 101, PipeOp.read 0,
           PipeOp.read 0, PipeOp.push 12 102, PipeOp.read 0]).2.length ∧
    (runPipe ⟨⟨1, []⟩, true, 0, none, none, none, 0⟩
        [PipeOp.push 10 100, PipeOp.push 11 101, PipeOp.read 0,
         PipeOp.read 0, PipeOp.push 12 102, PipeOp.read 0]).2.map
        VideoFrame.frame_id = [1, 2] :=
  ⟨sequence_ids_assigned_at_dequeue ⟨⟨1, []⟩, true, 0, none, none, none, 0⟩ _ rfl,
   by decide⟩

/-- C4: the two-phase capture holder is one-shot: `retrieve()` with no held
frame returns `(false, none)`; after one successful `grab()` the first
`retrieve()` succeeds with the grabbed image and the second consecutive
`retrieve()` fails with `(false, none)`; and a `grab()` that times out on
an empty queue returns `false` and clears any previously held frame. -/
theorem two_phase_holder_one_shot :
    (∀ (st : GStreamerFrameProducer),
        st.last_read_video_frame = none →
        st.retrieve = (st, (false, none))) ∧
    (∀ (st st1 : GStreamerFrameProducer) (now : ℚ),
        st.grab now = (st1, true) →
        ∃ img, (st1.retrieve).2 = (true, some img) ∧
          ((st1.retrieve).1.retrieve).2 = (false, none)) ∧
    (∀ (st : GStreamerFrameProducer) (now : ℚ),
        st.running = true → st.frame_queue.items = [] →
        st.grab now = ({ st with last_read_video_frame := none }, false)) := by
  refine ⟨?_, ?_, ?_⟩
  · intro st h
    simp [GStreamerFrameProducer.retrieve, h]
  · intro st st1 now hgrab
    cases hrun : st.running with
    | false => simp [GStreamerFrameProducer.grab, hrun] at hgrab
    | true =>
      cases hq : st.frame_queue.items with
      | nil =>
        simp [GStreamerFrameProducer.grab, GStreamerFrameProducer.read_frame,
              BoundedQueue.get_one, hrun, hq] at hgrab
      | cons slot rest =>
        simp only [GStreamerFrameProducer.grab, GStreamerFrameProducer.read_frame,
                   BoundedQueue.get_one, hrun, hq, if_true, Prod.mk.injEq] at hgrab
        refine ⟨slot.1, ?_, ?_⟩ <;>
          simp [← hgrab.1, GStreamerFrameProducer.retrieve]
  · intro st now hrun hq
    simp [GStreamerFrameProducer.grab, GStreamerFrameProducer.read_frame,
          BoundedQueue.get_one, hrun, hq]

/-- Witness for C4: a concrete producer holding one queued frame; grab then
retrieve twice, plus a fresh-state retrieve and an empty-queue grab. -/
theorem two_phase_holder_one_shot_witness :
    GStreamerFrameProducer.retrieve ⟨⟨60, []⟩, true, 0, none, none, none, 0⟩ =
      (⟨⟨60, []⟩, true, 0, none, none, none, 0⟩, (false, none)) ∧
    (∃ img,
      ((GStreamerFrameProducer.grab
          ⟨⟨60, [(5, none)]⟩, true, 0, none, none, none, 0⟩ 0).1.retrieve).2 =
        (true, some img) ∧
      (((GStreamerFrameProducer.grab
          ⟨⟨60, [(5, none)]⟩, true, 0, none, none, none, 0⟩ 0).1.retrieve).1.retrieve).2 =
        (false, none)) ∧
    GStreamerFrameProducer.grab ⟨⟨60, []⟩, true, 0, none, none, none, 0⟩ 0 =
      (⟨⟨60, []⟩, true, 0, none, none, none, 0⟩, false) := by
  refine ⟨two_phase_holder_one_shot.1 _ rfl, ?_, ?_⟩
  · exact two_phase_holder_one_shot.2.1
      ⟨⟨60, [(5, none)]⟩, true, 0, none, none, none, 0⟩ _ 0 (by decide)
  · have h := two_phase_holder_one_shot.2.2
      ⟨⟨60, []⟩, true, 0, none, none, none, 0⟩ 0 rfl rfl
    simpa using h

/-- C9: when the adapter is not running (`isOpened()` is false), `grab()`
returns false without touching the producer state (queue and single-slot
holder included), so a `retrieve()` issued after the adapter stops still
returns the frame held by the last successful `grab()`. -/
theorem grab_not_running_preserves_holder :
    ∀ (st : GStreamerFrameProducer) (now : ℚ),
      st.isOpened = false →
      st.grab now = (st, false) ∧
      (∀ vf img, st.last_read_video_frame = some vf → vf.image = some img →
        ((st.grab now).1.retrieve).2 = (true, some img)) := by
  intro st now hopen
  have hrun : st.running = false := hopen
  constructor
  · simp [GStreamerFrameProducer.grab, hrun]
  · intro vf img hvf himg
    simp [GStreamerFrameProducer.grab, hrun,
          GStreamerFrameProducer.retrieve, hvf, himg]

/-- Witness for C9: a stopped producer holding a grabbed frame: grab fails
and leaves everything unchanged, retrieve still returns the held image. -/
theorem grab_not_running_preserves_holder_witness :
    GStreamerFrameProducer.grab
        ⟨⟨60, [(9, some 1)]⟩, false, 3, some ⟨some 42, 3, 1, 0⟩, none, none, 0⟩ 0 =
      (⟨⟨60, [(9, some 1)]⟩, false, 3, some ⟨some 42, 3, 1, 0⟩, none, none, 0⟩, false) ∧
    ((GStreamerFrameProducer.grab
        ⟨⟨60, [(9, some 1)]⟩, false, 3, some ⟨some 42, 3, 1, 0⟩, none, none, 0⟩ 0).1.retrieve).2 =
      (true, some 42) :=
  ⟨(grab_not_running_preserves_holder
      ⟨⟨60, [(9, some 1)]⟩, false, 3, some ⟨some 42, 3, 1, 0⟩, none, none, 0⟩ 0 rfl).1,
   (grab_not_running_preserves_holder
      ⟨⟨60, [(9, some 1)]⟩, false, 3, some ⟨some 42, 3, 1, 0⟩, none, none, 0⟩ 0 rfl).2
     ⟨some 42, 3, 1, 0⟩ 42 rfl rfl⟩

/-- C10: `send_personal_message` for a client id absent from the registry
is a silent no-op: it delivers nothing, raises nothing (the embedding is a
total function mirroring the guarded code path), and leaves the whole
manager state — registry and keepalive task included — unchanged. -/
theorem send_personal_message_unknown_client_noop :
    ∀ (st : ConnectionManager) (fails : Nat → Bool) (msg : WsMessage)
      (client_id : String),
      st.active_connections.lookup client_id = none →
      st.send_personal_message fails msg client_id = (st, none) := by
  intro st fails msg client_id h
  simp [ConnectionManager.send_personal_message, h]

/-- Witness for C10: sending to the unknown client "z" of a concrete
two-client registry changes nothing and delivers nothing. -/
theorem send_personal_message_unknown_client_noop_witness :
    ConnectionManager.send_personal_message
        ⟨[("a", 0), ("b", 1)], some 4, true, 5⟩ (fun _ => true)
        WsMessage.ping "z" =
      (⟨[("a", 0), ("b", 1)], some 4, true, 5⟩, none) :=
  send_personal_message_unknown_client_noop
    ⟨[("a", 0), ("b", 1)], some 4, true, 5⟩ (fun _ => true)
    WsMessage.ping "z" (by decide)

/-! ## ConnectionManager helper lemmas -/

lemma broadcast_pass_fold (fails : Nat → Bool) (msg : WsMessage)
    (l : List (String × Nat)) (d : List (String × WsMessage)) (f : List String) :
    l.foldl
        (fun (acc : List (String × WsMessage) × List String) cw =>
          if fails cw.2 then (acc.1, acc.2 ++ [cw.1])
          else (acc.1 ++ [(cw.1, msg)], acc.2))
        (d, f) =
      (d ++ (l.filter (fun p => ! fails p.2)).map (fun p => (p.1, msg)),
       f ++ (l.filter (fun p => fails p.2)).map (fun p => p.1)) := by
  induction l generalizing d f with
  | nil => simp
  | cons cw t ih =>
    cases hf : fails cw.2 with
    | true => simp [hf, ih]
    | false => simp [hf, ih]

/-- The deliveries of one `broadcast` pass: every subscriber whose
transport does not fail receives the message, in registry order. -/
lemma broadcast_deliveries (st : ConnectionManager) (fails : Nat → Bool)
    (msg : WsMessage) :
    (st.broadcast fails msg).2 =
      (st.active_connections.filter (fun p => ! fails p.2)).map
        (fun p => (p.1, msg)) := by
  simp [ConnectionManager.broadcast, broadcast_pass_fold]

lemma dictInsert_ne_nil (l : List (String × Nat)) (k : String) (v : Nat) :
    dictInsert l k v ≠ [] := by
  unfold dictInsert
  split
  · intro hnil
    rename_i hany
    rw [List.map_eq_nil_iff] at hnil
    subst hnil
    simp at hany
  · simp

lemma send_all_ok_state (st : ConnectionManager) (fails : Nat → Bool)
    (msg : WsMessage) (c : String) (hall : ∀ w, fails w = false) :
    (st.send_personal_message fails msg c).1 = st := by
  unfold ConnectionManager.send_personal_message
  cases h : st.active_connections.lookup c with
  | none => rfl
  | some ws => simp [hall ws]

lemma inv_disconnectFinish (st1 : ConnectionManager)
    (h2 : st1.ping_task = none ↔ st1.is_running = false) :
    ManagerInv (ConnectionManager.disconnectFinish st1) := by
  unfold ManagerInv ConnectionManager.disconnectFinish
  split_ifs with hcond
  · exact ⟨fun _ => rfl, by simp⟩
  · refine ⟨?_, h2⟩
    intro hfe
    by_cases hp : st1.ping_task = none
    · exact hp
    · exfalso
      apply hcond
      refine ⟨hfe, hp, ?_⟩
      by_contra hr
      exact hp (h2.mpr (Bool.not_eq_true st1.is_running ▸ hr))

lemma inv_disconnect (st : ConnectionManager) (c : String)
    (h : ManagerInv st) : ManagerInv (st.disconnect c) := by
  obtain ⟨h1, h2⟩ := h
  unfold ConnectionManager.disconnect
  split_ifs with hmem
  · exact inv_disconnectFinish _ h2
  · exact inv_disconnectFinish _ h2

lemma inv_foldl_disconnect (l : List String) (st : ConnectionManager)
    (h : ManagerInv st) : ManagerInv (l.foldl ConnectionManager.disconnect st) := by
  induction l generalizing st with
  | nil => exact h
  | cons c t ih => exact ih _ (inv_disconnect st c h)

lemma inv_broadcast (st : ConnectionManager) (fails : Nat → Bool)
    (msg : WsMessage) (h : ManagerInv st) :
    ManagerInv (st.broadcast fails msg).1 := by
  exact inv_foldl_disconnect _ st h

lemma inv_send_personal (st : ConnectionManager) (fails : Nat → Bool)
    (msg : WsMessage) (c : String) (h : ManagerInv st) :
    ManagerInv (st.send_personal_message fails msg c).1 := by
  unfold ConnectionManager.send_personal_message
  cases hl : st.active_connections.lookup c with
  | none => exact h
  | some ws =>
    by_cases hf : fails ws
    · simpa [hf] using inv_disconnect st c h
    · simpa [hf] using h

lemma inv_connectFinish (st2 : ConnectionManager)
    (hne : st2.active_connections ≠ [])
    (h2 : st2.ping_task = none ↔ st2.is_running = false) :
    ManagerInv (ConnectionManager.connectFinish st2) := by
  unfold ManagerInv ConnectionManager.connectFinish
  split_ifs with hstart
  · exact ⟨fun hfe => absurd hfe hne, by simp⟩
  · exact ⟨fun hfe => absurd hfe hne, h2⟩

lemma inv_connect (st : ConnectionManager) (fails : Nat → Bool)
    (c : String) (ws : Nat) (hall : ∀ w, fails w = false)
    (h : ManagerInv st) : ManagerInv (st.connect fails c ws) := by
  obtain ⟨h1, h2⟩ := h
  unfold ConnectionManager.connect
  rw [send_all_ok_state _ _ _ _ hall]
  exact inv_connectFinish _ (dictInsert_ne_nil st.active_connections c ws) h2

lemma connect_first (st : ConnectionManager) (fails : Nat → Bool)
    (c : String) (ws : Nat) (h1 : st.active_connections = [])
    (h2 : st.ping_task = none) (h3 : st.is_running = false)
    (h4 : fails ws = false) :
    st.connect fails c ws =
      ⟨[(c, ws)], some st.next_task_id, true, st.next_task_id + 1⟩ := by
  simp [ConnectionManager.connect, ConnectionManager.send_personal_message,
        ConnectionManager.connectFinish, dictInsert, h1, h2, h3, h4,
        List.lookup]

lemma disconnect_last (st : ConnectionManager) (c : String) (ws t : Nat)
    (h1 : st.active_connections = [(c, ws)]) (h2 : st.ping_task = some t)
    (h3 : st.is_running = true) :
    st.disconnect c = ⟨[], none, false, st.next_task_id⟩ := by
  simp [ConnectionManager.disconnect, ConnectionManager.disconnectFinish,
        h1, h2, h3, List.lookup]

/-- C2: for a registry holding exactly the subscribers S1, S2, S3 (in
that order) where S2's transport raises on every send while S1's and S3's
succeed, one `broadcast(msg)` delivers `msg` to S1 and to S3 exactly once
each (S3 is reached even though S2, listed before it, failed: the pass is
never aborted), removes S2 from the registry only after the pass, leaves
S1 and S3 registered, and leaves the keepalive task state untouched. -/
theorem broadcast_isolates_failing_subscriber :
    ∀ (st : ConnectionManager) (s1 s2 s3 : String) (w1 w2 w3 : Nat)
      (fails : Nat → Bool) (msg : WsMessage),
      st.active_connections = [(s1, w1), (s2, w2), (s3, w3)] →
      s1 ≠ s2 → s2 ≠ s3 → s1 ≠ s3 →
      fails w1 = false → fails w2 = true → fails w3 = false →
      (st.broadcast fails msg).2 = [(s1, msg), (s3, msg)] ∧
      (st.broadcast fails msg).1.active_connections = [(s1, w1), (s3, w3)] ∧
      (st.broadcast fails msg).1.ping_task = st.ping_task ∧
      (st.broadcast fails msg).1.is_running = st.is_running := by
  intro st s1 s2 s3 w1 w2 w3 fails msg hconn h12 h23 h13 hf1 hf2 hf3
  have e21 : (s2 == s1) = false := beq_eq_false_iff_ne.mpr (Ne.symm h12)
  have e12 : (s1 != s2) = true := bne_iff_ne.mpr h12
  have e32 : (s3 != s2) = true := bne_iff_ne.mpr (Ne.symm h23)
  refine ⟨?_, ?_, ?_, ?_⟩ <;>
    simp [ConnectionManager.broadcast, ConnectionManager.disconnect,
          ConnectionManager.disconnectFinish, hconn, hf1, hf2, hf3,
          List.lookup, List.filter, e21, e12, e32]

/-- Witness for C2: concrete subscribers "a", "b", "c" on sockets 0, 1, 2
where only socket 1 fails: "a" and "c" each get the message once, "b" is
removed, the keepalive task is untouched. -/
theorem broadcast_isolates_failing_subscriber_witness :
    (ConnectionManager.broadcast ⟨[("a", 0), ("b", 1), ("c", 2)], some 4, true, 5⟩
        (fun w => w == 1) WsMessage.ping).2 = [("a", WsMessage.ping), ("c", WsMessage.ping)] ∧
    (ConnectionManager.broadcast ⟨[("a", 0), ("b", 1), ("c", 2)], some 4, true, 5⟩
        (fun w => w == 1) WsMessage.ping).1.active_connections = [("a", 0), ("c", 2)] ∧
    (ConnectionManager.broadcast ⟨[("a", 0), ("b", 1), ("c", 2)], some 4, true, 5⟩
        (fun w => w == 1) WsMessage.ping).1.ping_task =
      (⟨[("a", 0), ("b", 1), ("c", 2)], some 4, true, 5⟩ : ConnectionManager).ping_task ∧
    (ConnectionManager.broadcast ⟨[("a", 0), ("b", 1), ("c", 2)], some 4, true, 5⟩
        (fun w => w == 1) WsMessage.ping).1.is_running =
      (⟨[("a", 0), ("b", 1), ("c", 2)], some 4, true, 5⟩ : ConnectionManager).is_running :=
  broadcast_isolates_failing_subscriber
    ⟨[("a", 0), ("b", 1), ("c", 2)], some 4, true, 5⟩ "a" "b" "c" 0 1 2
    (fun w => w == 1) WsMessage.ping rfl (by decide) (by decide) (by decide)
    rfl rfl rfl

/-- C5 counterexample: the conjunct "no keepalive task runs while the
registry is empty" fails on the code.  From the initial state, a `connect`
whose welcome send fails removes the client again inside
`send_personal_message` (before the keepalive check runs), yet `connect`
then still starts a keepalive task: the resulting reachable state has an
empty registry and a live keepalive task. -/
theorem keepalive_empty_registry_counterexample :
    (ConnectionManager.connect ⟨[], none, false, 0⟩ (fun _ => true) "c1" 7).active_connections = [] ∧
    (ConnectionManager.connect ⟨[], none, false, 0⟩ (fun _ => true) "c1" 7).ping_task = some 0 ∧
    (ConnectionManager.connect ⟨[], none, false, 0⟩ (fun _ => true) "c1" 7).is_running = true := by
  refine ⟨?_, ?_, ?_⟩ <;> rfl

/-- C5 (amended): provided welcome sends succeed, connecting the first
subscriber when no keepalive task exists starts exactly one fresh task;
disconnecting the last subscriber cancels that task and awaits its
termination; a subsequent connect starts a fresh task (a new task
identity, not a reuse); and the invariant "no keepalive task exists while
the registry is empty" is preserved by connect (with succeeding
transports), disconnect, broadcast and send_personal_message — but not by
a connect whose welcome send fails (see the counterexample). -/
theorem keepalive_lifecycle_amended :
    (∀ (st : ConnectionManager) (fails : Nat → Bool) (c : String) (ws : Nat),
        st.active_connections = [] → st.ping_task = none →
        st.is_running = false → fails ws = false →
        st.connect fails c ws =
          ⟨[(c, ws)], some st.next_task_id, true, st.next_task_id + 1⟩) ∧
    (∀ (st : ConnectionManager) (c : String) (ws t : Nat),
        st.active_connections = [(c, ws)] → st.ping_task = some t →
        st.is_running = true →
        st.disconnect c = ⟨[], none, false, st.next_task_id⟩) ∧
    (∀ (st : ConnectionManager) (fails : Nat → Bool) (c c2 : String)
        (ws ws2 : Nat),
        st.active_connections = [] → st.ping_task = none →
        st.is_running = false → fails ws = false → fails ws2 = false →
        (((st.connect fails c ws).disconnect c).connect fails c2 ws2).ping_task =
            some (st.next_task_id + 1) ∧
          st.next_task_id + 1 ≠ st.next_task_id) ∧
    (∀ (st : ConnectionManager) (fails : Nat → Bool) (c : String) (ws : Nat),
        (∀ w, fails w = false) → ManagerInv st →
        ManagerInv (st.connect fails c ws)) ∧
    (∀ (st : ConnectionManager) (c : String),
        ManagerInv st → ManagerInv (st.disconnect c)) ∧
    (∀ (st : ConnectionManager) (fails : Nat → Bool) (msg : WsMessage),
        ManagerInv st → ManagerInv (st.broadcast fails msg).1) ∧
    (∀ (st : ConnectionManager) (fails : Nat → Bool) (msg : WsMessage)
        (c : String),
        ManagerInv st → ManagerInv (st.send_personal_message fails msg c).1) := by
  refine ⟨connect_first, disconnect_last, ?_, inv_connect, inv_disconnect,
          inv_broadcast, inv_send_personal⟩
  intro st fails c c2 ws ws2 h1 h2 h3 h4 h5
  rw [connect_first st fails c ws h1 h2 h3 h4]
  rw [disconnect_last _ c ws st.next_task_id rfl rfl rfl]
  rw [connect_first _ fails c2 ws2 rfl rfl rfl h5]
  exact ⟨rfl, Nat.succ_ne_self st.next_task_id⟩

/-- Witness for C5 (amended): the full scenario on concrete states —
first connect from the initial state starts task 0, disconnect cancels
it, the next connect starts the distinct task 1; plus the invariant
conjuncts applied to a concrete state. -/
theorem keepalive_lifecycle_amended_witness :
    ConnectionManager.connect ⟨[], none, false, 0⟩ (fun _ => false) "a" 3 =
      ⟨[("a", 3)], some 0, true, 1⟩ ∧
    ConnectionManager.disconnect ⟨[("a", 3)], some 0, true, 1⟩ "a" =
      ⟨[], none, false, 1⟩ ∧
    (((ConnectionManager.connect ⟨[], none, false, 0⟩ (fun _ => false) "a" 3).disconnect
        "a").connect (fun _ => false) "b" 4).ping_task = some 1 ∧
    ManagerInv (ConnectionManager.connect ⟨[], none, false, 0⟩ (fun _ => false) "a" 3) ∧
    ManagerInv (ConnectionManager.disconnect ⟨[("a", 3)], some 0, true, 1⟩ "a") ∧
    ManagerInv ((ConnectionManager.broadcast ⟨[("a", 3)], some 0, true, 1⟩
        (fun _ => true) WsMessage.ping).1) ∧
    ManagerInv ((ConnectionManager.send_personal_message ⟨[("a", 3)], some 0, true, 1⟩
        (fun _ => true) WsMessage.ping "a").1) := by
  have hinv1 : ManagerInv (⟨[], none, false, 0⟩ : ConnectionManager) :=
    ⟨fun _ => rfl, by simp⟩
  have hinv2 : ManagerInv (⟨[("a", 3)], some 0, true, 1⟩ : ConnectionManager) :=
    ⟨fun h => by simp at h, by simp⟩
  refine ⟨keepalive_lifecycle_amended.1 _ _ "a" 3 rfl rfl rfl rfl,
          keepalive_lifecycle_amended.2.1 _ "a" 3 0 rfl rfl rfl,
          (keepalive_lifecycle_amended.2.2.1 _ _ "a" "b" 3 4 rfl rfl rfl rfl rfl).1,
          keepalive_lifecycle_amended.2.2.2.1 _ _ "a" 3 (fun _ => rfl) hinv1,
          keepalive_lifecycle_amended.2.2.2.2.1 _ "a" hinv2,
          keepalive_lifecycle_amended.2.2.2.2.2.1 _ _ WsMessage.ping hinv2,
          keepalive_lifecycle_amended.2.2.2.2.2.2 _ _ WsMessage.ping "a" hinv2⟩

/-- C3 counterexample: a raw detection with every field present (center
(1,1), size (1,1), class "a") but confidence 2 does not normalize to
(1/2, 1/2, 1/2, 1/2) on a 2x2 image — the pydantic `ge=0.0, le=1.0`
validation on `confidence` raises, the `except (ValueError, TypeError)`
clause skips the item, and the output batch is empty. -/
theorem normalization_confidence_counterexample :
    processedDetections (some (2, 2))
        [⟨some 1, some 1, some 1, some 1, some 2, some "a"⟩] = [] ∧
    processedDetections (some (2, 2))
        [⟨some 1, some 1, some 1, some 1, some 2, some "a"⟩] ≠
      [⟨"a", 2, 1/2, 1/2, 1/2, 1/2⟩] := by
  constructor
  · rfl
  · intro h
    exact List.cons_ne_nil _ _ h.symm

/-- C3 (amended): for image size (W,H) with W>0 and H>0, each raw
detection with all six core fields present and confidence within [0,1]
normalizes to (cx/W, cy/H, w/W, h/H); for W<=0 or H<=0 the output
detection list is empty; and a raw item missing any core field — or, as
the counterexample forces, carrying a confidence outside [0,1] — is
skipped individually without failing the rest of the batch. -/
theorem normalization_law_amended :
    (∀ (W H : Int) (preds : List RawPrediction), 0 < W → 0 < H →
        processedDetections (some (H, W)) preds =
          preds.filterMap (processPrediction W H)) ∧
    (∀ (W H : Int) (cx cy w h conf : ℚ) (cls : String),
        0 ≤ conf → conf ≤ 1 →
        processPrediction W H
            ⟨some cx, some cy, some w, some h, some conf, some cls⟩ =
          some ⟨cls, conf, cx / (W : ℚ), cy / (H : ℚ), w / (W : ℚ),
                h / (H : ℚ)⟩) ∧
    (∀ (W H : Int) (preds : List RawPrediction), W ≤ 0 ∨ H ≤ 0 →
        processedDetections (some (H, W)) preds = []) ∧
    (∀ (W H : Int) (p : RawPrediction),
        p.x = none ∨ p.y = none ∨ p.width = none ∨ p.height = none ∨
          p.confidence = none ∨ p.className = none →
        processPrediction W H p = none) ∧
    (∀ (W H : Int) (p : RawPrediction) (pre post : List RawPrediction),
        processPrediction W H p = none →
        processedDetections (some (H, W)) (pre ++ p :: post) =
          processedDetections (some (H, W)) (pre ++ post)) := by
  refine ⟨?_, ?_, ?_, ?_, ?_⟩
  · intro W H preds hW hH
    simp [processedDetections, hW, hH]
  · intro W H cx cy w h conf cls hc0 hc1
    simp [processPrediction, mkDetectionObject, hc0, hc1]
  · intro W H preds hWH
    have hno : ¬ (0 < W ∧ 0 < H) := by
      rcases hWH with h | h
      · exact fun hc => absurd hc.1 (by omega)
      · exact fun hc => absurd hc.2 (by omega)
    simp [processedDetections, hno]
  · intro W H p hmiss
    obtain ⟨px, py, pw, ph, pc, pcl⟩ := p
    cases px <;> cases py <;> cases pw <;> cases ph <;> cases pc <;>
      cases pcl <;>
      first
        | rfl
        | (exfalso
           rcases hmiss with h | h | h | h | h | h <;> exact Option.noConfusion h)
  · intro W H p pre post hp
    by_cases hWH : 0 < W ∧ 0 < H
    · simp [processedDetections, hWH.1, hWH.2, List.filterMap_append,
            List.filterMap_cons, hp]
    · simp [processedDetections, hWH]

/-- Witness for C3 (amended): concrete instances — a valid item on a
640x480 image normalizes to the expected relative box, a zero-width image
yields an empty batch, and an item missing its class is skipped. -/
theorem normalization_law_amended_witness :
    processedDetections (some (480, 640))
        [⟨some 320, some 240, some 64, some 48, some (1/2), some "person"⟩] =
      [⟨"person", 1/2, 320 / 640, 240 / 480, 64 / 640, 48 / 480⟩] ∧
    processedDetections (some (480, 0))
        [⟨some 320, some 240, some 64, some 48, some (1/2), some "person"⟩] = [] ∧
    processedDetections (some (480, 640))
        [⟨some 320, some 240, some 64, some 48, some (1/2), none⟩,
         ⟨some 320, some 240, some 64, some 48, some (1/2), some "person"⟩] =
      [⟨"person", 1/2, 320 / 640, 240 / 480, 64 / 640, 48 / 480⟩] := by
  refine ⟨?_, ?_, ?_⟩
  · rw [normalization_law_amended.1 640 480 _ (by decide) (by decide),
        List.filterMap_cons,
        normalization_law_amended.2.1 640 480 320 240 64 48 (1/2) "person"
          (by norm_num) (by norm_num), List.filterMap_nil]
    norm_num
  · exact normalization_law_amended.2.2.1 0 480 _ (Or.inl (by decide))
  · have hskip := normalization_law_amended.2.2.2.2 640 480
      ⟨some 320, some 240, some 64, some 48, some (1/2), none⟩ []
      [⟨some 320, some 240, some 64, some 48, some (1/2), some "person"⟩]
      (normalization_law_amended.2.2.2.1 640 480 _ (by simp))
    rw [List.nil_append, List.nil_append] at hskip
    rw [hskip]
    rw [normalization_law_amended.1 640 480 _ (by decide) (by decide),
        List.filterMap_cons,
        normalization_law_amended.2.1 640 480 320 240 64 48 (1/2) "person"
          (by norm_num) (by norm_num), List.filterMap_nil]
    norm_num

/-- C6 counterexample: for a batch whose source image width is 0 (shape
(480, 0)), `handle_ai_prediction` broadcasts a result with an empty
detections list and `error = None` — the error field is NOT populated (the
condition is only logged as a warning), contradicting the claim that a
non-null error field is broadcast. -/
theorem zero_dimension_error_field_counterexample :
    (handle_ai_prediction
        [⟨some 320, some 240, some 64, some 48, some 1, some "person"⟩]
        ⟨Sum.inl 7, some 5, some (480, 0), none⟩ 0).detections = [] ∧
    (handle_ai_prediction
        [⟨some 320, some 240, some 64, some 48, some 1, some "person"⟩]
        ⟨Sum.inl 7, some 5, some (480, 0), none⟩ 0).error = none :=
  ⟨rfl, rfl⟩

/-- C6 (amended): when the source image width or height is not positive,
a `DetectionResult` with an empty detections list is still broadcast to
every subscriber whose transport succeeds — the condition is not silently
swallowed as far as delivery goes — but its `error` field is `None` (and
`model_dump(exclude_none=True)` then omits the key): the error field is
populated only when the handler itself raises, not for the
non-positive-dimension case, which is merely logged. -/
theorem empty_batch_still_broadcast :
    ∀ (st : ConnectionManager) (fails : Nat → Bool)
      (preds : List RawPrediction) (fi : FrameInfo) (now : ℚ) (h w : Int),
      fi.image_shape = some (h, w) → w ≤ 0 ∨ h ≤ 0 →
      (handle_ai_prediction preds fi now).detections = [] ∧
      (handle_ai_prediction preds fi now).error = none ∧
      (handleAndBroadcast st fails preds fi now).2 =
        (st.active_connections.filter (fun p => ! fails p.2)).map
          (fun p => (p.1, WsMessage.aiDetection (handle_ai_prediction preds fi now))) := by
  intro st fails preds fi now h w hshape hwh
  have hno : ¬ (0 < w ∧ 0 < h) := by
    rcases hwh with h1 | h1
    · exact fun hc => absurd hc.1 (by omega)
    · exact fun hc => absurd hc.2 (by omega)
  refine ⟨?_, rfl, ?_⟩
  · simp [handle_ai_prediction, processedDetections, hshape, hno]
  · exact broadcast_deliveries st fails _

/-- Witness for C6 (amended): a concrete zero-width batch is broadcast to
the one subscriber with a working transport, with empty detections and a
null error field. -/
theorem empty_batch_still_broadcast_witness :
    (handle_ai_prediction
        [⟨some 320, some 240, some 64, some 48, some 1, some "p"⟩]
        ⟨Sum.inl 7, some 5, some (480, 0), none⟩ 0).detections = [] ∧
    (handle_ai_prediction
        [⟨some 320, some 240, some 64, some 48, some 1, some "p"⟩]
        ⟨Sum.inl 7, some 5, some (480, 0), none⟩ 0).error = none ∧
    (handleAndBroadcast ⟨[("a", 0), ("b", 1)], some 2, true, 3⟩ (fun v => v == 1)
        [⟨some 320, some 240, some 64, some 48, some 1, some "p"⟩]
        ⟨Sum.inl 7, some 5, some (480, 0), none⟩ 0).2 =
      ((⟨[("a", 0), ("b", 1)], some 2, true, 3⟩ : ConnectionManager).active_connections.filter
          (fun p => ! (fun v => v == 1) p.2)).map
        (fun p => (p.1, WsMessage.aiDetection
          (handle_ai_prediction
            [⟨some 320, some 240, some 64, some 48, some 1, some "p"⟩]
            ⟨Sum.inl 7, some 5, some (480, 0), none⟩ 0))) :=
  empty_batch_still_broadcast ⟨[("a", 0), ("b", 1)], some 2, true, 3⟩
    (fun v => v == 1)
    [⟨some 320, some 240, some 64, some 48, some 1, some "p"⟩]
    ⟨Sum.inl 7, some 5, some (480, 0), none⟩ 0 480 0 rfl (Or.inl (by decide))

/-- C7: timestamp fidelity end-to-end: a frame pushed with
`capture_timestamp_ns = T` is dequeued with datetime `T / 1_000_000_000`
seconds, and the relayed detection payload carries the integer-millisecond
timestamp `⌊T / 1_000_000⌋`, which is within 1 ms of `T / 1_000_000`. -/
theorem timestamp_fidelity :
    ∀ (st : GStreamerFrameProducer) (img T : Nat) (rest : List FrameSlot)
      (now : ℚ) (preds : List RawPrediction) (shape : Option (Int × Int)),
      st.running = true →
      st.frame_queue.items = (img, some T) :: rest →
      ((st.read_frame now).2.map
          (fun vf =>
            (handle_ai_prediction preds (mkFrameInfo vf shape) now).timestamp)) =
        some ⌊(T : ℚ) / 1000000⌋ ∧
      |((⌊(T : ℚ) / 1000000⌋ : ℤ) : ℚ) - (T : ℚ) / 1000000| < 1 := by
  intro st img T rest now preds shape hrun hq
  have harith : (T : ℚ) / 1000000000 * 1000 = (T : ℚ) / 1000000 := by
    ring
  constructor
  · simp only [GStreamerFrameProducer.read_frame, hrun, BoundedQueue.get_one,
               hq, if_true]
    simp only [Option.map_some', handle_ai_prediction, mkFrameInfo, pyInt]
    simp only [harith]
    rw [if_neg (not_lt.mpr (by positivity : (0 : ℚ) ≤ (T : ℚ) / 1000000))]
  · rw [abs_sub_lt_iff]
    constructor
    · have h1 := Int.floor_le ((T : ℚ) / 1000000)
      linarith
    · have h2 := Int.sub_one_lt_floor ((T : ℚ) / 1000000)
      linarith

/-- Witness for C7: a frame captured at T = 1234567890 ns relays a payload
timestamp of exactly 1234 ms, within 1 ms of T / 10^6 = 1234.56789 ms. -/
theorem timestamp_fidelity_witness :
    ((GStreamerFrameProducer.read_frame
          ⟨⟨60, [(5, some 1234567890)]⟩, true, 0, none, none, none, 0⟩ 0).2.map
        (fun vf =>
          (handle_ai_prediction [] (mkFrameInfo vf none) 0).timestamp)) =
      some ⌊(1234567890 : ℚ) / 1000000⌋ ∧
    |((⌊((1234567890 : Nat) : ℚ) / 1000000⌋ : ℤ) : ℚ) -
        ((1234567890 : Nat) : ℚ) / 1000000| < 1 ∧
    ⌊(1234567890 : ℚ) / 1000000⌋ = 1234 := by
  have h := timestamp_fidelity
    ⟨⟨60, [(5, some 1234567890)]⟩, true, 0, none, none, none, 0⟩ 5 1234567890
    [] 0 [] none rfl rfl
  refine ⟨?_, h.2, ?_⟩
  · have h1 := h.1
    norm_num at h1 ⊢
    exact h1
  · rw [Int.floor_eq_iff]
    norm_num
